import Mathlib

/-!
Shallow embedding of `src/ext/multiprocessing.py`.

Modelling conventions:
* `datetime` timestamps are `Nat`; each call to `datetime.now()` is an
  explicit parameter of the function that performs it, in program order
  (so `evaluate_job` takes the `started_at` reading before the
  `finished_at` reading).
* Python exceptions that the module can raise or catch are the inductive
  `PyExc`.  `except Exception` catches every `PyExc` (all exceptions the
  module manipulates are `Exception` subclasses; `BaseException`-only
  escapees such as `KeyboardInterrupt` are outside the model).
* A function that can raise returns `Except PyExc _`; a callback whose
  body both mutates its object and may raise partway returns the mutated
  state paired with `Option PyExc` (Python mutations persist even when a
  later statement of the same body raises).
* Values that cross the dynamically-typed pool boundary (the return value
  of `AsyncResult.get`) live in `TaskValue`, with one constructor per
  Python runtime type that actually occurs.
* `Job.error` holds the inner exception of the stored
  `JobFailedError(job, e)`: in the source the wrapper's `job` field is an
  alias of the job itself, so the inner exception is the only additional
  information (`error` is populated iff the wrapper was stored).
* Argument tuples and results of user callables are `List Int` / `Int`:
  enough to express every claim, while the control flow of the module is
  embedded in full.
-/

/-- Python exceptions manipulated by the module (all `Exception`
subclasses, hence caught by `except Exception`). -/
inductive PyExc where
  | assertionError (msg : String)
  | valueError (msg : String)
  | invalidStateError
  deriving DecidableEq, Repr

/-- Message of the precondition asserts in `JobHandle.stats`,
`JobHandle.join` and `evaluate_job`. -/
def notSubmittedMsg : String := "job was not properly submitted to worker pool"

/-- `JobStats` dataclass: `submitted_at`, optional `started_at` /
`finished_at`. -/
structure JobStats where
  submitted_at : Nat
  started_at : Option Nat := none
  finished_at : Option Nat := none
  deriving DecidableEq, Repr

/-- `JobStats.elapsed`: 0 if `started_at` is unset, else 0 if
`finished_at` is unset, else the (possibly negative) difference
`finished_at - started_at`, mirroring
`(self.finished_at - self.started_at).total_seconds()`. -/
def JobStats.elapsed (s : JobStats) : Int :=
  match s.started_at with
  | none => 0
  | some st =>
    match s.finished_at with
    | none => 0
    | some fin => (fin : Int) - (st : Int)

/-- Type of user callables submitted to the pool: applied to the argument
tuple, they either return a value or raise. -/
def PyFunc : Type := List Int → Except PyExc Int

/-- `Job.__init__`: id, callable, argument tuple, and the three outcome
slots initialised to `None`. -/
structure Job where
  id : Nat
  func : PyFunc
  args : List Int
  stats : Option JobStats := none
  result : Option Int := none
  error : Option PyExc := none

/-- `JobFailedError(job, inner_error)`. -/
structure JobFailedError where
  job : Job
  inner_error : PyExc

/-- The `try`-block of `evaluate_job`, up to the first statement that
raises: the `assert` on `stats` (raising `AssertionError`), setting
`started_at`, calling the user function (whose exception propagates), and
storing the return value.  On a raise, the error carries the object state
at raise time, because Python mutations made before the raise persist. -/
def evaluate_job_try (tStart : Nat) (job : Job) : Except (PyExc × Job) Job :=
  match job.stats with
  | none => .error (.assertionError notSubmittedMsg, job)
  | some st =>
    let job1 := { job with stats := some { st with started_at := some tStart } }
    match job1.func job1.args with
    | .ok v => .ok { job1 with result := some v }
    | .error e => .error (e, job1)

/-- `evaluate_job`: runs the `try` body; `except Exception as e` stores
`JobFailedError(job, e)` into `job.error` (recorded as the inner
exception, the wrapper's `job` field being an alias of the job); the
`finally` block sets `finished_at` when `stats` is truthy (a `JobStats`
instance is always truthy, so this is a `None` test); the job itself is
returned.  The function never raises: every raise point of the body is a
`PyExc` and is caught. -/
def evaluate_job (tStart tFinish : Nat) (job : Job) : Job :=
  let afterExcept : Job :=
    match evaluate_job_try tStart job with
    | .ok j => j
    | .error (e, j) => { j with error := some e }
  match afterExcept.stats with
  | none => afterExcept
  | some st => { afterExcept with stats := some { st with finished_at := some tFinish } }

/-- A Python value returned through `AsyncResult.get()` (the pool is
dynamically typed): `None`, an `int`, or a `Job` object. -/
inductive TaskValue where
  | pyNone
  | pyInt (n : Int)
  | pyJob (j : Job)

/-- The `mpp.AsyncResult` wired by `_submit`: it runs `evaluate_job` on
(a pickled copy of) the dispatched job in a worker process. -/
structure PoolTask where
  job : Job

/-- `AsyncResult.get()`: returns the worker function's return value —
here always the `Job` returned by `evaluate_job` (which never raises, so
the task itself never fails with a user error).  The two timestamps are
the worker's two `datetime.now()` readings. -/
def PoolTask.get (t : PoolTask) (tStart tFinish : Nat) : TaskValue :=
  .pyJob (evaluate_job tStart tFinish t.job)

/-- The error value handed to `error_callback` by the pool's completion
machinery: either a `JobFailedError` or some other exception (a
pool-level failure such as a pickling error). -/
inductive PoolDeliveredError where
  | jobFailed (e : JobFailedError)
  | otherExc (e : PyExc)

/-- `JobHandle.__init__` leaves `_pool_task` as `cast(mpp.AsyncResult,
None)`, modelled as `none`. -/
structure JobHandle where
  _job : Job
  _pool_task : Option PoolTask := none

/-- `JobHandle(job)` constructor. -/
def JobHandle.init (job : Job) : JobHandle :=
  { _job := job, _pool_task := none }

/-- `JobHandle.job_id` property. -/
def JobHandle.job_id (h : JobHandle) : Nat := h._job.id

/-- `JobHandle.stats` property: asserts the job's stats is populated,
raising `AssertionError` otherwise. -/
def JobHandle.stats (h : JobHandle) : Except PyExc JobStats :=
  match h._job.stats with
  | none => .error (.assertionError notSubmittedMsg)
  | some st => .ok st

/-- `JobHandle.join`: asserts the pool task was wired, then blocks on
`get()` and returns its value (the worker's two clock readings are
parameters). -/
def JobHandle.join (h : JobHandle) (tStart tFinish : Nat) : Except PyExc TaskValue :=
  match h._pool_task with
  | none => .error (.assertionError notSubmittedMsg)
  | some task => .ok (task.get tStart tFinish)

/-- `JobHandle._on_success(job)`: replaces `self._job` with the delivered
job, then builds the debug log line, whose f-string eagerly evaluates
`self.stats` — which asserts.  Returns the state after the body together
with the exception it raised, if any (the replacement persists even when
the log line's assert fires). -/
def JobHandle._on_success (h : JobHandle) (job : Job) : JobHandle × Option PyExc :=
  let h1 := { h with _job := job }
  match job.stats with
  | none => (h1, some (.assertionError notSubmittedMsg))
  | some _ => (h1, none)

/-- `JobHandle._on_error(error)`: asserts the error is a
`JobFailedError` (before any mutation), then replaces `self._job` with
`error.job`, then the log line evaluates `self.stats` (asserting).  State
after the body plus the raised exception, if any. -/
def JobHandle._on_error (h : JobHandle) (error : PoolDeliveredError) : JobHandle × Option PyExc :=
  match error with
  | .otherExc _ => (h, some (.assertionError "unexpected error type"))
  | .jobFailed e =>
    let h1 := { h with _job := e.job }
    match e.job.stats with
    | none => (h1, some (.assertionError notSubmittedMsg))
    | some _ => (h1, none)

/-- State of an `asyncio.Future`: pending, resolved with a value (an
`Optional[int]` here, since `set_result` receives `job.result`), or
rejected with an exception. -/
inductive FutureState where
  | pending
  | resolved (v : Option Int)
  | rejected (e : PyExc)
  deriving DecidableEq, Repr

/-- `Future.set_result`: resolves a pending future; raises
`InvalidStateError` on an already-settled one. -/
def FutureState.set_result (f : FutureState) (v : Option Int) : FutureState × Option PyExc :=
  match f with
  | .pending => (.resolved v, none)
  | _ => (f, some .invalidStateError)

/-- `Future.set_exception`: rejects a pending future; raises
`InvalidStateError` on an already-settled one. -/
def FutureState.set_exception (f : FutureState) (e : PyExc) : FutureState × Option PyExc :=
  match f with
  | .pending => (.rejected e, none)
  | _ => (f, some .invalidStateError)

/-- Awaiting a future: a pending future keeps the awaiting task suspended
(`none`); a settled future resumes it with the value or the exception. -/
def FutureState.awaitFuture (f : FutureState) : Option (Except PyExc (Option Int)) :=
  match f with
  | .pending => none
  | .resolved v => some (.ok v)
  | .rejected e => some (.error e)

/-- `AsyncJobHandle(job, future)`: a `JobHandle` plus a future bound to
the pool's event loop. -/
structure AsyncJobHandle extends JobHandle where
  _future : FutureState

/-- `AsyncJobHandle.__await__` delegates to `self._future.__await__()`. -/
def AsyncJobHandle.awaitHandle (h : AsyncJobHandle) : Option (Except PyExc (Option Int)) :=
  h._future.awaitFuture

/-- `AsyncJobHandle._on_success(job)` schedules `_set_result` onto the
future's loop via `call_soon_threadsafe`; once the loop runs it, the
closure calls `JobHandle._on_success(self, j)` and then
`self._future.set_result(j.result)`.  Modelled as the state after the
closure has run, plus the exception it raised, if any (an exception from
the base callback prevents `set_result` from running). -/
def AsyncJobHandle._on_success (h : AsyncJobHandle) (job : Job) : AsyncJobHandle × Option PyExc :=
  let (base, exc) := JobHandle._on_success h.toJobHandle job
  match exc with
  | some e => (⟨base, h._future⟩, some e)
  | none =>
    let (f2, exc2) := h._future.set_result job.result
    (⟨base, f2⟩, exc2)

/-- `AsyncJobHandle._on_error(error)` schedules `_set_err` onto the
loop; the closure calls `JobHandle._on_error(self, e)` (which asserts the
error is a `JobFailedError`) and then
`self._future.set_exception(e.inner_error)`.  An exception from the base
callback prevents `set_exception` from running. -/
def AsyncJobHandle._on_error (h : AsyncJobHandle) (error : PoolDeliveredError) :
    AsyncJobHandle × Option PyExc :=
  let (base, exc) := JobHandle._on_error h.toJobHandle error
  match exc with
  | some e => (⟨base, h._future⟩, some e)
  | none =>
    match error with
    | .jobFailed e =>
      let (f2, exc2) := h._future.set_exception e.inner_error
      (⟨base, f2⟩, exc2)
    | .otherExc _ => (⟨base, h._future⟩, none)

/-- What the pool's completion machinery does with a finished task:
`apply_async(evaluate_job, (job,), callback, error_callback)` invokes
`callback` with the worker function's return value when the worker
function returned, and `error_callback` with the raised exception when it
raised.  `evaluate_job` never raises, so the delivery is always a success
carrying the evaluated job. -/
inductive CallbackInvocation where
  | success (job : Job)
  | failure (error : PoolDeliveredError)

/-- Completion delivery for a dispatched job: since `evaluate_job`
returns normally on every input (its `try/except` catches every
exception the body can raise), the success callback is always the one
invoked. -/
def poolDeliver (tStart tFinish : Nat) (job : Job) : CallbackInvocation :=
  .success (evaluate_job tStart tFinish job)

/-- `WorkerPool` state relevant to submission: the job-id counter
(`_job_id`, starting at 0).  The `mp.Pool` and event loop it owns are
modelled through `PoolTask` and `FutureState`. -/
structure WorkerPool where
  _job_id : Nat := 0
  deriving DecidableEq, Repr

/-- `WorkerPool._next_job_id`: increment, then return the new value. -/
def WorkerPool._next_job_id (p : WorkerPool) : WorkerPool × Nat :=
  ({ p with _job_id := p._job_id + 1 }, p._job_id + 1)

/-- `WorkerPool._submit(f, args, create_handle)` where `create_handle`
builds an `AsyncJobHandle` around a fresh pending future (as wired by
`submit`): builds the job, stamps fresh stats "now", constructs the
handle, dispatches `evaluate_job` on the job and wires the pool task. -/
def WorkerPool._submit (p : WorkerPool) (tNow : Nat) (f : PyFunc) (args : List Int) :
    WorkerPool × AsyncJobHandle :=
  let (p1, jid) := p._next_job_id
  let job0 : Job := { id := jid, func := f, args := args }
  let job : Job := { job0 with stats := some { submitted_at := tNow } }
  let handle0 : AsyncJobHandle := ⟨JobHandle.init job, .pending⟩
  let handle := { handle0 with _pool_task := some ⟨job⟩ }
  (p1, handle)

/-- `WorkerPool.submit(func, *args)`: `_submit` with the async handle
factory. -/
def WorkerPool.submit (p : WorkerPool) (tNow : Nat) (f : PyFunc) (args : List Int) :
    WorkerPool × AsyncJobHandle :=
  p._submit tNow f args

/-- A sequence of `submit` calls on one pool instance, threading the
pool state; returns the final pool and the handles in submission
order. -/
def submitSeq (p : WorkerPool) (tNow : Nat) :
    List (PyFunc × List Int) → WorkerPool × List AsyncJobHandle
  | [] => (p, [])
  | (f, args) :: rest =>
    let (p1, h) := p.submit tNow f args
    let (p2, hs) := submitSeq p1 tNow rest
    (p2, h :: hs)

/-- One completion delivery observed by a submitted handle.  A worker
finishing its task makes the pool invoke the success callback with the
evaluated job (`evaluate_job` never raises); a pool-level failure (e.g. a
pickling error) invokes the error callback with a non-`JobFailedError`
exception, whose `isinstance` assert fires before any mutation, leaving
the handle unchanged. -/
inductive CompletionStep : AsyncJobHandle → AsyncJobHandle → Prop where
  | success (tStart tFinish : Nat) (h h' : AsyncJobHandle) (task : PoolTask) :
      h._pool_task = some task →
      h' = (h._on_success (evaluate_job tStart tFinish task.job)).1 →
      CompletionStep h h'
  | poolFailure (e : PyExc) (h h' : AsyncJobHandle) :
      h' = (h._on_error (.otherExc e)).1 →
      CompletionStep h h'

/-- Handle states reachable from a given handle by completion
deliveries. -/
def HandleReachable : AsyncJobHandle → AsyncJobHandle → Prop :=
  Relation.ReflTransGen CompletionStep

/-! ### Concrete fixtures used by witnesses and counterexamples -/

/-- The `add` callable of the spec's test properties: returns the sum of
its two arguments. -/
def add : PyFunc := fun args =>
  match args with
  | [a, b] => .ok (a + b)
  | _ => .error (.valueError "add expects two arguments")

/-- A callable that raises `ValueError("boom")`. -/
def boom : PyFunc := fun _ => .error (.valueError "boom")

/-- A job built directly (never passed through `submit`), so its `stats`
slot still holds the constructor default `None`. -/
def statlessJob : Job := { id := 1, func := add, args := [2, 3] }

/-- Another never-dispatched job, for handle-level precondition tests. -/
def undispatchedJob : Job := { id := 7, func := add, args := [2, 3] }

/-! ### Helper lemmas about `submit` and `evaluate_job` -/

/-- The job built by `submit`: next id, the callable and arguments, and
fresh stats stamped "now". -/
def submitJob (p : WorkerPool) (tNow : Nat) (f : PyFunc) (args : List Int) : Job :=
  { id := p._job_id + 1, func := f, args := args, stats := some { submitted_at := tNow } }

/-- The handle returned by `submit`. -/
def submittedHandle (p : WorkerPool) (tNow : Nat) (f : PyFunc) (args : List Int) :
    AsyncJobHandle :=
  (p.submit tNow f args).2

theorem submittedHandle_job (p : WorkerPool) (tNow : Nat) (f : PyFunc) (args : List Int) :
    (submittedHandle p tNow f args)._job = submitJob p tNow f args := rfl

theorem submittedHandle_pool_task (p : WorkerPool) (tNow : Nat) (f : PyFunc) (args : List Int) :
    (submittedHandle p tNow f args)._pool_task = some ⟨submitJob p tNow f args⟩ := rfl

theorem submittedHandle_future (p : WorkerPool) (tNow : Nat) (f : PyFunc) (args : List Int) :
    (submittedHandle p tNow f args)._future = .pending := rfl

theorem submit_fst (p : WorkerPool) (tNow : Nat) (f : PyFunc) (args : List Int) :
    (p.submit tNow f args).1 = { _job_id := p._job_id + 1 } := rfl

theorem submit_job_id (p : WorkerPool) (tNow : Nat) (f : PyFunc) (args : List Int) :
    (submittedHandle p tNow f args).toJobHandle.job_id = p._job_id + 1 := rfl

/-- Evaluation of a job whose `stats` is populated: `started_at` receives
the first clock reading, `finished_at` the second; on success the return
value goes to `result`, on a raise the exception goes to `error`; all
other fields are untouched. -/
theorem evaluate_job_eq_of_stats (tStart tFinish : Nat) (job : Job) (st : JobStats)
    (h : job.stats = some st) :
    evaluate_job tStart tFinish job =
      match job.func job.args with
      | .ok v =>
        { job with stats := some ⟨st.submitted_at, some tStart, some tFinish⟩,
                   result := some v }
      | .error e =>
        { job with stats := some ⟨st.submitted_at, some tStart, some tFinish⟩,
                   error := some e } := by
  cases hf : job.func job.args <;>
    simp [evaluate_job, evaluate_job_try, h, hf]

/-! ### Claims -/

/-- C5 counterexample: a `JobStats` value with `finished_at` earlier than
`started_at` has a negative `elapsed`, refuting the claim's unconditional
non-negativity. -/
theorem C5_counterexample :
    (JobStats.mk 0 (some 1) (some 0)).elapsed = -1 ∧
    (JobStats.mk 0 (some 1) (some 0)).elapsed < 0 := by
  constructor <;> decide

/-- C5 (amended): for every `JobStats`, `elapsed = 0` when `started_at`
or `finished_at` is unset, and otherwise `elapsed = finished_at -
started_at`, which is non-negative whenever `started_at ≤ finished_at`
(the unconditional non-negativity of the original claim fails, see the
counterexample). -/
theorem C5_elapsed_spec (s : JobStats) :
    (s.started_at = none ∨ s.finished_at = none → s.elapsed = 0) ∧
    (∀ st fin, s.started_at = some st → s.finished_at = some fin →
      s.elapsed = (fin : Int) - (st : Int) ∧ (st ≤ fin → 0 ≤ s.elapsed)) := by
  obtain ⟨sub, sa, fa⟩ := s
  cases sa <;> cases fa <;> simp [JobStats.elapsed]

/-- C5 witness: the amended statement evaluated at concrete stats
values. -/
theorem C5_witness :
    (JobStats.mk 0 none none).elapsed = 0 ∧
    (JobStats.mk 0 (some 2) (some 5)).elapsed = (5 : Int) - (2 : Int) ∧
    (0 : Int) ≤ (JobStats.mk 0 (some 2) (some 5)).elapsed :=
  ⟨(C5_elapsed_spec (JobStats.mk 0 none none)).1 (Or.inl rfl),
   ((C5_elapsed_spec (JobStats.mk 0 (some 2) (some 5))).2 2 5 rfl rfl).1,
   ((C5_elapsed_spec (JobStats.mk 0 (some 2) (some 5))).2 2 5 rfl rfl).2 (by decide)⟩

theorem submitSeq_job_ids (tNow : Nat) (specs : List (PyFunc × List Int)) :
    ∀ p : WorkerPool,
      (submitSeq p tNow specs).2.map (fun h => h.toJobHandle.job_id) =
        (List.range specs.length).map (fun i => p._job_id + 1 + i) := by
  induction specs with
  | nil => intro p; simp [submitSeq]
  | cons fa rest ih =>
    intro p
    obtain ⟨f, args⟩ := fa
    show (submittedHandle p tNow f args).toJobHandle.job_id ::
        (submitSeq (p.submit tNow f args).1 tNow rest).2.map
          (fun h => h.toJobHandle.job_id) = _
    rw [ih, submit_job_id, submit_fst, List.length_cons, List.range_succ_eq_map,
      List.map_cons, List.map_map]
    refine congrArg₂ _ (by omega) (List.map_congr_left fun a _ => ?_)
    simp
    omega

/-- C4: submitting N jobs from one pool instance yields ids that are
pairwise distinct and strictly increasing in submission order. -/
theorem C4_job_ids_strictly_increasing (p : WorkerPool) (tNow : Nat)
    (specs : List (PyFunc × List Int)) :
    ((submitSeq p tNow specs).2.map (fun h => h.toJobHandle.job_id)).Pairwise (· < ·) ∧
    ((submitSeq p tNow specs).2.map (fun h => h.toJobHandle.job_id)).Nodup := by
  have hpw : ((submitSeq p tNow specs).2.map
      (fun h => h.toJobHandle.job_id)).Pairwise (· < ·) := by
    rw [submitSeq_job_ids tNow specs p]
    exact List.pairwise_map.mpr ((List.pairwise_lt_range _).imp (fun hab => by omega))
  exact ⟨hpw, hpw.imp Nat.ne_of_lt⟩

/-- C9: `_on_error` asserts its argument is a `JobFailedError` (raising a
type-contract `AssertionError` otherwise, without mutating the handle);
on a `JobFailedError` it replaces the handle's job reference with the job
carried inside the error. -/
theorem C9_on_error_contract (h : JobHandle) (e : JobFailedError) (ex : PyExc) :
    JobHandle._on_error h (.otherExc ex) =
      (h, some (.assertionError "unexpected error type")) ∧
    (JobHandle._on_error h (.jobFailed e)).1._job = e.job := by
  refine ⟨rfl, ?_⟩
  cases hst : e.job.stats <;> simp [JobHandle._on_error, hst]

/-- C6: on a handle built around a job never dispatched through `submit`
(stats unset, no pool task wired), both the `stats` property and `join()`
raise the precondition `AssertionError` instead of returning a
default. -/
theorem C6_undispatched_handle_fails (job : Job) (tStart tFinish : Nat)
    (hstats : job.stats = none) :
    JobHandle.stats (JobHandle.init job) = .error (.assertionError notSubmittedMsg) ∧
    JobHandle.join (JobHandle.init job) tStart tFinish =
      .error (.assertionError notSubmittedMsg) := by
  simp [JobHandle.init, JobHandle.stats, JobHandle.join, hstats]

/-- C6 witness: the precondition failures observed on a concrete
never-dispatched job. -/
theorem C6_witness :
    undispatchedJob.stats = none ∧
    JobHandle.stats (JobHandle.init undispatchedJob) =
      .error (.assertionError notSubmittedMsg) ∧
    JobHandle.join (JobHandle.init undispatchedJob) 0 1 =
      .error (.assertionError notSubmittedMsg) :=
  ⟨rfl, (C6_undispatched_handle_fails undispatchedJob 0 1 rfl).1,
    (C6_undispatched_handle_fails undispatchedJob 0 1 rfl).2⟩

/-- A job as `submit` builds it, with stats populated at submission
time. -/
def submittedJob : Job :=
  { id := 2, func := add, args := [2, 3], stats := some { submitted_at := 0 } }

/-- C8: on a job whose stats is populated, `evaluate_job` leaves `id`,
`func`, `args` and `stats.submitted_at` unchanged; `started_at` receives
the worker's first clock reading and `finished_at` its second (each
written exactly once, in that program order), `finished_at`
unconditionally (the stats equation holds for both outcomes of the
callable); the mutated job is `evaluate_job`'s own return value (in the
embedding the returned job *is* the job carrying these fields). -/
theorem C8_evaluate_job_frame (tStart tFinish : Nat) (job : Job) (st : JobStats)
    (hstats : job.stats = some st) :
    (evaluate_job tStart tFinish job).id = job.id ∧
    (evaluate_job tStart tFinish job).func = job.func ∧
    (evaluate_job tStart tFinish job).args = job.args ∧
    (evaluate_job tStart tFinish job).stats =
      some { submitted_at := st.submitted_at, started_at := some tStart,
             finished_at := some tFinish } := by
  rw [evaluate_job_eq_of_stats tStart tFinish job st hstats]
  cases job.func job.args <;> simp

/-- C8 witness: the frame conditions evaluated on a concrete submitted
job. -/
theorem C8_witness :
    (evaluate_job 3 4 submittedJob).id = submittedJob.id ∧
    (evaluate_job 3 4 submittedJob).func = submittedJob.func ∧
    (evaluate_job 3 4 submittedJob).args = submittedJob.args ∧
    (evaluate_job 3 4 submittedJob).stats =
      some { submitted_at := 0, started_at := some 3, finished_at := some 4 } :=
  C8_evaluate_job_frame 3 4 submittedJob { submitted_at := 0 } rfl

/-- The job `submit({}, 0, add, [2, 3])` dispatches, as returned by the
worker at clock readings 1 and 2: result slot holds `5`. -/
def completedAddJob : Job :=
  { id := 1, func := add, args := [2, 3],
    stats := some { submitted_at := 0, started_at := some 1, finished_at := some 2 },
    result := some 5 }

/-- C2 (code behavior at the failing input): after `submit(add, 2, 3)`,
`join()` returns the value of `pool_task.get()` — the `Job` object
returned by `evaluate_job`, whose `result` slot holds `5` — and not the
integer `5` that the claim (and `join`'s own `-> T` annotation, and the
async path's `set_result(job.result)`) promise. -/
theorem C2_join_returns_job_object :
    JobHandle.join (submittedHandle {} 0 add [2, 3]).toJobHandle 1 2 =
      .ok (.pyJob completedAddJob) ∧
    completedAddJob.result = some 5 ∧
    JobHandle.join (submittedHandle {} 0 add [2, 3]).toJobHandle 1 2 ≠
      .ok (.pyInt 5) := by
  refine ⟨rfl, rfl, fun hc => ?_⟩
  rw [show JobHandle.join (submittedHandle {} 0 add [2, 3]).toJobHandle 1 2 =
      .ok (.pyJob completedAddJob) from rfl] at hc
  exact TaskValue.noConfusion (Except.ok.inj hc)

/-- C3 counterexample: invoking `evaluate_job` on a concrete job whose
`stats` is `None` does *not* surface the precondition violation: the
`assert` sits inside the `try`, `except Exception` catches the
`AssertionError` and stores it in `job.error`, and the function returns
normally — so the pool's completion machinery still takes the success
path. -/
theorem C3_counterexample :
    evaluate_job 0 1 statlessJob =
      { statlessJob with error := some (.assertionError notSubmittedMsg) } ∧
    poolDeliver 0 1 statlessJob =
      .success { statlessJob with error := some (.assertionError notSubmittedMsg) } :=
  ⟨rfl, rfl⟩

/-- C3 (amended): on a job whose `stats` is unset, the precondition
assert of `evaluate_job` fires but is absorbed by the function's own
`except` clause: `evaluate_job` returns normally with `job.error` set to
the wrapped `AssertionError`, no timestamps recorded, and the delivery is
a success-callback invocation. -/
theorem C3_assert_absorbed (tStart tFinish : Nat) (job : Job)
    (hstats : job.stats = none) :
    evaluate_job tStart tFinish job =
      { job with error := some (.assertionError notSubmittedMsg) } ∧
    poolDeliver tStart tFinish job =
      .success { job with error := some (.assertionError notSubmittedMsg) } := by
  have h1 : evaluate_job tStart tFinish job =
      { job with error := some (.assertionError notSubmittedMsg) } := by
    simp [evaluate_job, evaluate_job_try, hstats]
  exact ⟨h1, by rw [poolDeliver, h1]⟩

/-- C3 witness: the amended statement at a concrete stats-less job. -/
theorem C3_witness :
    statlessJob.stats = none ∧
    evaluate_job 5 9 statlessJob =
      { statlessJob with error := some (.assertionError notSubmittedMsg) } :=
  ⟨rfl, (C3_assert_absorbed 5 9 statlessJob rfl).1⟩

/-- The job `submit({}, 0, boom, [])` dispatches, as returned by the
worker at clock readings 1 and 2: the raise was absorbed, `error` is
populated and the `result` slot is still the unset default. -/
def boomJobDone : Job :=
  { id := 1, func := boom, args := [],
    stats := some { submitted_at := 0, started_at := some 1, finished_at := some 2 },
    error := some (.valueError "boom") }

/-- C1 counterexample: for the submitted callable `boom` (which raises),
`join()` does not resolve with the job's `result` slot (the unset
default, i.e. `None`): it returns the completed `Job` object itself. -/
theorem C1_counterexample :
    JobHandle.join (submittedHandle {} 0 boom []).toJobHandle 1 2 =
      .ok (.pyJob boomJobDone) ∧
    JobHandle.join (submittedHandle {} 0 boom []).toJobHandle 1 2 ≠
      .ok TaskValue.pyNone := by
  refine ⟨rfl, fun hc => ?_⟩
  rw [show JobHandle.join (submittedHandle {} 0 boom []).toJobHandle 1 2 =
      .ok (.pyJob boomJobDone) from rfl] at hc
  exact TaskValue.noConfusion (Except.ok.inj hc)

/-- C1 (amended): when a submitted callable raises, `evaluate_job`
returns normally with `job.error` populated and the `result` slot left at
the unset default; the pool's completion machinery invokes the success
callback; the async handle's future resolves with the unset `result`
(the callback raises nothing), so awaiting yields the unset default
instead of raising the user's error; and `join()` returns the completed
`Job` object (not the `result` slot's value — see the
counterexample). -/
theorem C1_user_failure_absorbed (p : WorkerPool) (tNow tStart tFinish : Nat)
    (f : PyFunc) (args : List Int) (e : PyExc) (hraise : f args = .error e) :
    (evaluate_job tStart tFinish (submitJob p tNow f args)).error = some e ∧
    (evaluate_job tStart tFinish (submitJob p tNow f args)).result = none ∧
    poolDeliver tStart tFinish (submitJob p tNow f args) =
      .success (evaluate_job tStart tFinish (submitJob p tNow f args)) ∧
    ((submittedHandle p tNow f args)._on_success
        (evaluate_job tStart tFinish (submitJob p tNow f args))).2 = none ∧
    ((submittedHandle p tNow f args)._on_success
        (evaluate_job tStart tFinish (submitJob p tNow f args))).1._future =
      .resolved none ∧
    ((submittedHandle p tNow f args)._on_success
        (evaluate_job tStart tFinish (submitJob p tNow f args))).1.awaitHandle =
      some (.ok none) ∧
    JobHandle.join (submittedHandle p tNow f args).toJobHandle tStart tFinish =
      .ok (.pyJob (evaluate_job tStart tFinish (submitJob p tNow f args))) := by
  have hj : evaluate_job tStart tFinish (submitJob p tNow f args) =
      { id := p._job_id + 1, func := f, args := args,
        stats := some ⟨tNow, some tStart, some tFinish⟩, result := none,
        error := some e } := by
    rw [evaluate_job_eq_of_stats tStart tFinish _ { submitted_at := tNow } rfl]
    simp [submitJob, hraise]
  refine ⟨?_, ?_, rfl, ?_, ?_, ?_, rfl⟩ <;> rw [hj] <;>
    simp [submitJob, submittedHandle, WorkerPool.submit, WorkerPool._submit,
      WorkerPool._next_job_id, JobHandle.init, AsyncJobHandle._on_success,
      JobHandle._on_success, FutureState.set_result, AsyncJobHandle.awaitHandle,
      FutureState.awaitFuture]

/-- C1 witness: the amended statement at the concrete raising callable
`boom`. -/
theorem C1_witness :
    (evaluate_job 1 2 (submitJob {} 0 boom [])).error = some (.valueError "boom") ∧
    (evaluate_job 1 2 (submitJob {} 0 boom [])).result = none ∧
    poolDeliver 1 2 (submitJob {} 0 boom []) =
      .success (evaluate_job 1 2 (submitJob {} 0 boom [])) ∧
    ((submittedHandle {} 0 boom [])._on_success
        (evaluate_job 1 2 (submitJob {} 0 boom []))).2 = none ∧
    ((submittedHandle {} 0 boom [])._on_success
        (evaluate_job 1 2 (submitJob {} 0 boom []))).1._future = .resolved none ∧
    ((submittedHandle {} 0 boom [])._on_success
        (evaluate_job 1 2 (submitJob {} 0 boom []))).1.awaitHandle =
      some (.ok none) ∧
    JobHandle.join (submittedHandle {} 0 boom []).toJobHandle 1 2 =
      .ok (.pyJob (evaluate_job 1 2 (submitJob {} 0 boom []))) :=
  C1_user_failure_absorbed {} 0 1 2 boom [] (.valueError "boom") rfl

/-- `_on_success` leaves the handle's pool task untouched (both the
raising and the non-raising paths only touch `_job` and the future). -/
theorem on_success_pool_task (h : AsyncJobHandle) (j : Job) :
    (h._on_success j).1._pool_task = h._pool_task := by
  cases hjs : j.stats <;>
    simp [AsyncJobHandle._on_success, JobHandle._on_success, hjs]

/-- After `_on_success`, the handle's job reference is the delivered
job (on both the raising and the non-raising paths). -/
theorem on_success_job (h : AsyncJobHandle) (j : Job) :
    (h._on_success j).1._job = j := by
  cases hjs : j.stats <;>
    simp [AsyncJobHandle._on_success, JobHandle._on_success, hjs]

/-- `evaluate_job` preserves a populated `stats` slot. -/
theorem evaluate_job_stats_isSome (tStart tFinish : Nat) (job : Job)
    (hs : job.stats.isSome = true) :
    (evaluate_job tStart tFinish job).stats.isSome = true := by
  obtain ⟨st, hst⟩ := Option.isSome_iff_exists.mp hs
  rw [evaluate_job_eq_of_stats tStart tFinish job st hst]
  cases job.func job.args <;> simp

/-- C7: for an async handle whose future is still pending (the pool
delivers each task's completion exactly once) receiving a pool delivery
(delivered jobs and the jobs inside `JobFailedError`s carry populated
stats, so the callbacks' log lines do not raise): the success callback
resolves the future with the delivered job's `result`; the failure
callback rejects the future with the error's *inner* error, not the
wrapper; awaiting the handle delegates to awaiting its future, which
keeps the task suspended exactly while the future is pending and resumes
it with the value or the exception once settled. -/
theorem C7_async_callbacks (h : AsyncJobHandle) (j : Job) (st : JobStats)
    (jf : JobFailedError) (stf : JobStats)
    (hpend : h._future = .pending) (hjs : j.stats = some st)
    (hjfs : jf.job.stats = some stf) :
    ((h._on_success j).1._future = .resolved j.result) ∧
    ((h._on_success j).2 = none) ∧
    ((h._on_success j).1.awaitHandle = some (.ok j.result)) ∧
    ((h._on_error (.jobFailed jf)).1._future = .rejected jf.inner_error) ∧
    ((h._on_error (.jobFailed jf)).2 = none) ∧
    ((h._on_error (.jobFailed jf)).1.awaitHandle = some (.error jf.inner_error)) ∧
    (h.awaitHandle = h._future.awaitFuture) ∧
    (h.awaitHandle = none) := by
  refine ⟨?_, ?_, ?_, ?_, ?_, ?_, rfl, ?_⟩ <;>
    simp [AsyncJobHandle._on_success, AsyncJobHandle._on_error, JobHandle._on_success,
      JobHandle._on_error, FutureState.set_result, FutureState.set_exception,
      AsyncJobHandle.awaitHandle, FutureState.awaitFuture, hpend, hjs, hjfs]

/-- C7 witness: the callback contract evaluated on a freshly submitted
handle, a concrete completed job, and a concrete `JobFailedError`. -/
theorem C7_witness :
    (((submittedHandle {} 0 add [2, 3])._on_success completedAddJob).1._future =
      .resolved (some 5)) ∧
    (((submittedHandle {} 0 add [2, 3])._on_success completedAddJob).2 = none) ∧
    (((submittedHandle {} 0 add [2, 3])._on_success completedAddJob).1.awaitHandle =
      some (.ok (some 5))) ∧
    (((submittedHandle {} 0 add [2, 3])._on_error
        (.jobFailed ⟨boomJobDone, .valueError "boom"⟩)).1._future =
      .rejected (.valueError "boom")) ∧
    (((submittedHandle {} 0 add [2, 3])._on_error
        (.jobFailed ⟨boomJobDone, .valueError "boom"⟩)).2 = none) ∧
    (((submittedHandle {} 0 add [2, 3])._on_error
        (.jobFailed ⟨boomJobDone, .valueError "boom"⟩)).1.awaitHandle =
      some (.error (.valueError "boom"))) ∧
    ((submittedHandle {} 0 add [2, 3]).awaitHandle =
      (submittedHandle {} 0 add [2, 3])._future.awaitFuture) ∧
    ((submittedHandle {} 0 add [2, 3]).awaitHandle = none) :=
  C7_async_callbacks (submittedHandle {} 0 add [2, 3]) completedAddJob
    ⟨0, some 1, some 2⟩ ⟨boomJobDone, .valueError "boom"⟩ ⟨0, some 1, some 2⟩
    rfl rfl rfl

/-- Invariant of a properly submitted handle: its job and the job inside
its wired pool task both carry populated stats. -/
def SubmittedInv (h : AsyncJobHandle) : Prop :=
  h._job.stats.isSome = true ∧
  ∀ task, h._pool_task = some task → task.job.stats.isSome = true

theorem submittedHandle_inv (p : WorkerPool) (tNow : Nat) (f : PyFunc)
    (args : List Int) : SubmittedInv (submittedHandle p tNow f args) := by
  refine ⟨rfl, fun task htask => ?_⟩
  rw [submittedHandle_pool_task] at htask
  rw [← Option.some.inj htask]
  rfl

theorem step_preserves_inv (h h' : AsyncJobHandle) (step : CompletionStep h h')
    (inv : SubmittedInv h) : SubmittedInv h' := by
  cases step with
  | success tStart tFinish _ _ task hpt heq =>
    subst heq
    refine ⟨?_, fun task' htask' => ?_⟩
    · rw [on_success_job]
      exact evaluate_job_stats_isSome tStart tFinish task.job (inv.2 task hpt)
    · rw [on_success_pool_task] at htask'
      exact inv.2 task' htask'
  | poolFailure e _ _ heq =>
    have hsame : (h._on_error (.otherExc e)).1 = h := rfl
    rw [heq, hsame]
    exact inv

theorem reachable_inv (h h' : AsyncJobHandle) (hr : HandleReachable h h')
    (inv : SubmittedInv h) : SubmittedInv h' := by
  induction hr with
  | refl => exact inv
  | tail _ step ih => exact step_preserves_inv _ _ step ih

/-- C10: on every handle returned by `submit`, and on every handle state
reachable from it by completion deliveries (success deliveries install
`evaluate_job`'s output, which preserves populated stats; pool-level
failure deliveries abort at the `isinstance` assert without mutating the
handle), the `stats` property succeeds — its precondition assert is
unreachable for submitted handles. -/
theorem C10_stats_assert_unreachable (p : WorkerPool) (tNow : Nat) (f : PyFunc)
    (args : List Int) (h' : AsyncJobHandle)
    (hr : HandleReachable (submittedHandle p tNow f args) h') :
    (JobHandle.stats h'.toJobHandle).isOk = true := by
  have inv := reachable_inv _ _ hr (submittedHandle_inv p tNow f args)
  obtain ⟨st, hst⟩ := Option.isSome_iff_exists.mp inv.1
  simp [JobHandle.stats, hst, Except.isOk, Except.toBool]

/-- C10 witness: `stats` succeeds on a concrete submitted handle after
one success delivery. -/
theorem C10_witness :
    (JobHandle.stats ((submittedHandle {} 0 add [2, 3])._on_success
        (evaluate_job 1 2 (submitJob {} 0 add [2, 3]))).1.toJobHandle).isOk = true :=
  C10_stats_assert_unreachable {} 0 add [2, 3]
    ((submittedHandle {} 0 add [2, 3])._on_success
      (evaluate_job 1 2 (submitJob {} 0 add [2, 3]))).1
    (Relation.ReflTransGen.single
      (CompletionStep.success 1 2 (submittedHandle {} 0 add [2, 3])
        ((submittedHandle {} 0 add [2, 3])._on_success
          (evaluate_job 1 2 (submitJob {} 0 add [2, 3]))).1
        ⟨submitJob {} 0 add [2, 3]⟩ rfl rfl))
